import Mathlib

/-!
Verification development for the ELECA household electricity estimator.

The engine's data model and operations are embedded shallowly: TypeScript
numbers become exact rationals, record types become structures, and the
React component's memoised computations (`summary`, `calendarDays` in
DailyCalendar.tsx) become pure functions taking an explicit calendar date
for every place the component reads the wall clock via `new Date()`.
-/

/-- Language-independent day status used by the calendar grid
(DailyCalendar.tsx line 77). -/
inductive DayStatus where
  | safe
  | warning
  | critical
  | noStatus
deriving DecidableEq, Repr

/-- Season, from types.ts. -/
inductive Season where
  | summer
  | winter
  | monsoon
deriving DecidableEq, Repr

/-- Appliance category, from types.ts. -/
inductive ApplianceCategory where
  | lighting
  | cooling
  | heating
  | electronics
  | motor
deriving DecidableEq, Repr

/-- Energy-rating input mode, from types.ts. -/
inductive EnergyMode where
  | standard
  | bee_annual
  | iseer
  | eer
deriving DecidableEq, Repr

/-- Subsidy type, from types.ts. -/
inductive SubsidyType where
  | noSubsidy
  | government
  | company
deriving DecidableEq, Repr

/-- SubsidyConfig, from types.ts. -/
structure SubsidyConfig where
  type : SubsidyType
  limitUnits : ℚ
deriving DecidableEq, Repr

/-- One tariff slab, from types.ts: `max = none` is the open-ended final slab. -/
structure TariffSlab where
  lo : ℚ
  hi : Option ℚ
  rate : ℚ
deriving DecidableEq, Repr

/-- A state's progressive tariff, from types.ts. -/
structure StateTariff where
  fixedCharge : ℚ
  slabs : List TariffSlab
deriving DecidableEq, Repr

/-- Appliance descriptor, from types.ts (only engine-relevant fields; the
§3 invariant makes exactly the fields of `inputMode` authoritative, so the
mode-specific fields are carried as plain rationals). -/
structure Appliance where
  category : ApplianceCategory
  watts : ℚ
  hoursPerDay : ℚ
  daysPerMonth : ℚ
  quantity : ℚ
  inputMode : EnergyMode
  annualUnits : ℚ
  capacityTon : ℚ
  iseerValue : ℚ
  eerValue : ℚ
deriving DecidableEq, Repr

/-- One calendar day's usage log, from types.ts (engine-relevant fields). -/
structure UserDailyUsage where
  date : String
  totalUnits : ℚ
  totalCost : ℚ
  isEstimated : Bool
deriving DecidableEq, Repr

/-- A calendar date, standing for the component's `new Date()` reading. -/
structure CalendarDate where
  year : Nat
  month : Nat
  day : Nat
deriving DecidableEq, Repr

/-- Gregorian leap-year test. -/
def isLeapYear (y : Nat) : Bool :=
  (y % 4 == 0 && y % 100 != 0) || y % 400 == 0

/-- Number of days in a Gregorian month, as computed by
`new Date(year, month + 1, 0).getDate()` in DailyCalendar.tsx line 24. -/
def daysInGregorianMonth (y m : Nat) : Nat :=
  if m == 2 then (if isLeapYear y then 29 else 28)
  else if m == 4 || m == 6 || m == 9 || m == 11 then 30
  else 31

/-- Two-digit zero padding, as `i.toString().padStart(2, '0')`. -/
def pad2 (n : Nat) : String :=
  if n < 10 then "0" ++ toString n else toString n

/-- The `YYYY-MM` month key taken from a date
(`new Date().toISOString().slice(0, 7)`, DailyCalendar.tsx line 23). -/
def monthString (d : CalendarDate) : String :=
  toString d.year ++ "-" ++ pad2 d.month

/-- The `YYYY-MM-DD` string of a date. -/
def dateString (d : CalendarDate) : String :=
  monthString d ++ "-" ++ pad2 d.day

/-- The date string of day `i` in month `ym`
(DailyCalendar.tsx line 69). -/
def dateStrOf (ym : String) (i : Nat) : String :=
  ym ++ "-" ++ pad2 i

/-- Modelled from the spec (§4.1): the per-season multiplier table of
`ApplianceEnergyModel` is not under src/; the spec fixes summer at 1.2
(example scenario) and the ordering summer > monsoon > winter. -/
def seasonMultiplier : Season → ℚ
  | Season.summer => 6 / 5
  | Season.monsoon => 1
  | Season.winter => 9 / 10

/-- Whether a category is seasonally sensitive: the spec (§4.1) applies
the seasonal multiplier only to cooling/heating categories. -/
def seasonSensitive : ApplianceCategory → Bool
  | ApplianceCategory.cooling => true
  | ApplianceCategory.heating => true
  | _ => false

/-- Modelled from the spec (§4.1): `calculateApplianceUnits` (the spec's
`computeMonthlyUnits` of ApplianceEnergyModel) lives in src/utils/calculator.ts,
which is not under src/. Mode `standard`: watts × hoursPerDay × daysPerMonth ×
quantity / 1000, seasonally adjusted for cooling/heating only; `bee_annual`:
annualUnits / 12 × quantity, seasonally adjusted for cooling/heating only;
`iseer`/`eer`: effective kW drawn from cooling tons (3.517 kW of cooling per
ton) over the efficiency ratio, times hours, days and quantity, seasonally
adjusted. -/
def calculateApplianceUnits (a : Appliance) (s : Season) : ℚ :=
  let mult : ℚ := if seasonSensitive a.category then seasonMultiplier s else 1
  match a.inputMode with
  | EnergyMode.standard =>
      a.watts * a.hoursPerDay * a.daysPerMonth * a.quantity / 1000 * mult
  | EnergyMode.bee_annual =>
      a.annualUnits / 12 * a.quantity * mult
  | EnergyMode.iseer =>
      a.capacityTon * (3517 / 1000) / a.iseerValue * a.hoursPerDay * a.daysPerMonth * a.quantity * mult
  | EnergyMode.eer =>
      a.capacityTon * (3517 / 1000) / a.eerValue * a.hoursPerDay * a.daysPerMonth * a.quantity * mult

/-- Cost breakdown returned by the progressive tariff engine. -/
structure BillBreakdown where
  energyCost : ℚ
  fixedCharge : ℚ
  total : ℚ
deriving DecidableEq, Repr

/-- Billable quantity falling inside one slab for a given unit total:
`min(units, slab.max ?? ∞) − slab.min`, clamped to ≥ 0 (spec §4.2). -/
def slabPortion (units : ℚ) (s : TariffSlab) : ℚ :=
  max 0 ((match s.hi with
          | some m => min units m
          | Option.none => units) - s.lo)

/-- Modelled from the spec (§4.2): `calculateProgressiveBill` lives in
src/utils/calculator.ts, which is not under src/. Walks the slabs, charges
each slab's clamped portion at its rate, and adds the fixed charge once,
even at zero units. -/
def calculateProgressiveBill (units : ℚ) (t : StateTariff) : BillBreakdown :=
  let energy := (t.slabs.map (fun s => slabPortion units s * s.rate)).sum
  { energyCost := energy, fixedCharge := t.fixedCharge, total := energy + t.fixedCharge }

/-- Result of the subsidy adjuster. -/
structure SubsidyResult where
  subsidizedUnits : ℚ
  billableUnits : ℚ
  remainingSubsidyUnits : ℚ
deriving DecidableEq, Repr

/-- Modelled from the spec (§4.3): `applySubsidy` lives in
src/utils/calculator.ts, which is not under src/. Type `none` passes units
through; government/company make the first `limitUnits` free. -/
def applySubsidy (units : ℚ) (cfg : SubsidyConfig) : SubsidyResult :=
  match cfg.type with
  | SubsidyType.noSubsidy =>
      { subsidizedUnits := 0, billableUnits := units, remainingSubsidyUnits := 0 }
  | _ =>
      { subsidizedUnits := min units cfg.limitUnits
        billableUnits := max 0 (units - cfg.limitUnits)
        remainingSubsidyUnits := max 0 (cfg.limitUnits - units) }

/-- Per-appliance breakdown entry (types.ts `ApplianceBreakdown`). -/
structure ApplianceBreakdown where
  appliance : Appliance
  units : ℚ
  cost : ℚ
  percentage : ℚ
deriving DecidableEq, Repr

/-- Letter efficiency grade (types.ts `efficiencyScore`). -/
inductive EffGrade where
  | A
  | B
  | C
  | D
  | E
deriving DecidableEq, Repr

/-- Error raised for a malformed tariff schedule (spec §7). -/
inductive ConfigurationError where
  | invalidTariff
deriving DecidableEq, Repr

/-- Full calculation output (types.ts `CalculationResult`, engine fields;
the season→units projection record is carried as three fields). -/
structure CalculationResult where
  totalUnits : ℚ
  solarGeneratedUnits : ℚ
  netUnits : ℚ
  subsidizedUnits : ℚ
  billableUnits : ℚ
  totalCost : ℚ
  energyCost : ℚ
  fixedCharge : ℚ
  applianceBreakdown : List ApplianceBreakdown
  highestConsumer : Option ApplianceBreakdown
  topConsumers : List ApplianceBreakdown
  efficiencyScore : EffGrade
  remainingSubsidyUnits : ℚ
  seasonalImpact : ℚ
  summerUnits : ℚ
  winterUnits : ℚ
  monsoonUnits : ℚ
deriving DecidableEq, Repr

/-- Structural validity of a slab list from lower bound `lo` (spec §4.4):
contiguous, ascending, and exactly the final slab open-ended. -/
def checkSlabs : ℚ → List TariffSlab → Bool
  | _, [] => false
  | lo, [s] => (s.lo == lo) && (s.hi == Option.none)
  | lo, s :: r :: rs =>
      (s.lo == lo) &&
      (match s.hi with
       | some m => decide (lo < m) && checkSlabs m (r :: rs)
       | Option.none => false)

/-- Structural validity of a whole tariff: slabs start at 0 and are
contiguous/ascending with an unbounded final slab (spec §4.4). -/
def validTariff (t : StateTariff) : Bool :=
  checkSlabs 0 t.slabs

/-- Solar generation from a solar configuration (spec §4.4 step 2:
0 when not installed, else rated kW × 4 kWh/kW/day × 30 days). -/
structure SolarConfig where
  isInstalled : Bool
  ratingKw : ℚ
deriving DecidableEq, Repr

/-- Modelled from the spec (§4.4 step 2): solar units generated per month. -/
def solarGenerated (sc : SolarConfig) : ℚ :=
  if sc.isInstalled then sc.ratingKw * 4 * 30 else 0

/-- Stable descending insertion by units (spec §4.4 step 7 requires a
stable sort, ties keeping insertion order). -/
def insertByUnitsDesc (x : ApplianceBreakdown) : List ApplianceBreakdown → List ApplianceBreakdown
  | [] => [x]
  | y :: ys => if x.units ≤ y.units then y :: insertByUnitsDesc x ys else x :: y :: ys

/-- Stable descending sort by units. -/
def sortByUnitsDesc (l : List ApplianceBreakdown) : List ApplianceBreakdown :=
  l.foldr insertByUnitsDesc []

/-- Modelled from the spec (§4.4 step 8): banded letter grade on total
units — A < 150, B < 300, C < 450, D < 600, E ≥ 600. -/
def efficiencyGrade (u : ℚ) : EffGrade :=
  if u < 150 then EffGrade.A
  else if u < 300 then EffGrade.B
  else if u < 450 then EffGrade.C
  else if u < 600 then EffGrade.D
  else EffGrade.E

/-- Total monthly units of a whole inventory in a season. -/
def inventoryUnits (apps : List Appliance) (s : Season) : ℚ :=
  (apps.map (fun a => calculateApplianceUnits a s)).sum

/-- Modelled from the spec (§4.4): `getFullCalculation` lives in
src/utils/calculator.ts, which is not under src/. Orchestrates appliance
units, solar offset, subsidy split, progressive billing, proportional
breakdown, top consumers, efficiency grade and seasonal projections;
refuses a structurally invalid tariff with a `ConfigurationError`. -/
def getFullCalculation (apps : List Appliance) (tariff : StateTariff)
    (solar : SolarConfig) (sub : SubsidyConfig) (season : Season) :
    Except ConfigurationError CalculationResult :=
  if validTariff tariff then
    let totalUnits := inventoryUnits apps season
    let solarGen := solarGenerated solar
    let netUnits := max 0 (totalUnits - solarGen)
    let subsidy := applySubsidy netUnits sub
    let bill := calculateProgressiveBill subsidy.billableUnits tariff
    let breakdown := apps.map (fun a =>
      let u := calculateApplianceUnits a season
      { appliance := a
        units := u
        cost := if totalUnits = 0 then 0 else u / totalUnits * bill.energyCost
        percentage := if totalUnits = 0 then 0 else u / totalUnits * 100 })
    let sorted := sortByUnitsDesc breakdown
    let su := inventoryUnits apps Season.summer
    let wu := inventoryUnits apps Season.winter
    let mu := inventoryUnits apps Season.monsoon
    let others : ℚ :=
      match season with
      | Season.summer => (wu + mu) / 2
      | Season.winter => (su + mu) / 2
      | Season.monsoon => (su + wu) / 2
    Except.ok
      { totalUnits := totalUnits
        solarGeneratedUnits := solarGen
        netUnits := netUnits
        subsidizedUnits := subsidy.subsidizedUnits
        billableUnits := subsidy.billableUnits
        totalCost := bill.total
        energyCost := bill.energyCost
        fixedCharge := bill.fixedCharge
        applianceBreakdown := breakdown
        highestConsumer := sorted.head?
        topConsumers := sorted.take 3
        efficiencyScore := efficiencyGrade totalUnits
        remainingSubsidyUnits := subsidy.remainingSubsidyUnits
        seasonalImpact := totalUnits - others
        summerUnits := su
        winterUnits := wu
        monsoonUnits := mu }
  else
    Except.error ConfigurationError.invalidTariff

/-- Monthly summary (types.ts `MonthlyUsageSummary` plus the
`estRemainderCost` field built in DailyCalendar.tsx lines 46–60). -/
structure MonthlySummary where
  month : String
  totalUnits : ℚ
  totalCost : ℚ
  subsidyLimit : ℚ
  subsidyUsed : ℚ
  slabCrossed : Bool
  projectedBill : ℚ
  projectedUnits : ℚ
  confidenceScore : Option ℚ
  isStabilized : Bool
  estRemainderCost : ℚ
deriving DecidableEq, Repr

/-- `p` is a prefix of `s`, on the underlying character lists: the model of
JavaScript `s.startsWith(p)`. -/
def strStartsWith (s p : String) : Bool :=
  p.data.isPrefixOf s.data

/-- Strict lexicographic order on character lists. -/
def charListLt : List Char → List Char → Bool
  | [], [] => false
  | [], _ :: _ => true
  | _ :: _, [] => false
  | a :: as, b :: bs =>
      if decide (a < b) then true
      else if decide (b < a) then false
      else charListLt as bs

/-- Strict lexicographic order on strings: the model of both
`a.localeCompare(b) < 0` and `new Date(a) < new Date(b)` on ISO
`YYYY-MM-DD` strings of the same month grid. -/
def strLt (a b : String) : Bool :=
  charListLt a.data b.data

/-- One rendered calendar cell (DailyCalendar.tsx lines 84–91). -/
structure CalDay where
  date : String
  dayNum : Nat
  log : Option UserDailyUsage
  status : DayStatus
  isFuture : Bool
  isEstimated : Bool
deriving DecidableEq, Repr

/-- Date-ascending insertion (comparator `a.date.localeCompare(b.date)`
of DailyCalendar.tsx line 27, lexicographic on ISO dates). -/
def insertByDate (x : UserDailyUsage) : List UserDailyUsage → List UserDailyUsage
  | [] => [x]
  | y :: ys =>
      if strLt y.date x.date || y.date == x.date then y :: insertByDate x ys
      else x :: y :: ys

/-- Sort logs ascending by date string. -/
def sortByDate (l : List UserDailyUsage) : List UserDailyUsage :=
  l.foldr insertByDate []

namespace DailyCalendar

/-- `monthLogs` (DailyCalendar.tsx lines 26–28): the logs of the current
month, sorted by date. `today` stands for the component's `new Date()`. -/
def monthLogs (logs : List UserDailyUsage) (today : CalendarDate) : List UserDailyUsage :=
  sortByDate (logs.filter (fun l => strStartsWith l.date (monthString today)))

/-- Month-to-date total units: the `reduce` of DailyCalendar.tsx line 31. -/
def monthTotal (logs : List UserDailyUsage) (today : CalendarDate) : ℚ :=
  ((monthLogs logs today).map (fun l => l.totalUnits)).sum

/-- Number of logged days in the month (DailyCalendar.tsx line 32). -/
def daysLoggedCount (logs : List UserDailyUsage) (today : CalendarDate) : Nat :=
  (monthLogs logs today).length

/-- The component's `daysInMonth` (DailyCalendar.tsx line 24). -/
def daysInMonthOf (today : CalendarDate) : Nat :=
  daysInGregorianMonth today.year today.month

/-- The `summary` memo of DailyCalendar.tsx lines 30–61, with the wall
clock made the explicit argument `today`. -/
def summary (logs : List UserDailyUsage) (stateTariff : StateTariff)
    (inventory : List Appliance) (subsidyConfig : SubsidyConfig)
    (season : Season) (today : CalendarDate) : MonthlySummary :=
  let currentMonth := monthString today
  let daysInMonth := daysInMonthOf today
  let totalUnits := monthTotal logs today
  let daysLogged := daysLoggedCount logs today
  let baselineDaily := (inventory.map (fun a => calculateApplianceUnits a season / 30)).sum
  let avgUnitsPerDay := if daysLogged > 0 then totalUnits / (daysLogged : ℚ) else baselineDaily
  let projectedUnits := avgUnitsPerDay * (daysInMonth : ℚ)
  let isStabilized := daysLogged ≥ 7
  let confidenceScore : Option ℚ :=
    if daysLogged ≥ 10 then some (min 99 (65 + ((daysLogged : ℚ) / (daysInMonth : ℚ)) * 35))
    else Option.none
  let projectedBillTotal := calculateProgressiveBill projectedUnits stateTariff
  let mtdBillCost := calculateProgressiveBill totalUnits stateTariff
  let estRemainderCost := max 0 (projectedBillTotal.total - mtdBillCost.total)
  { month := currentMonth
    totalUnits := totalUnits
    totalCost := mtdBillCost.total
    subsidyLimit := subsidyConfig.limitUnits
    subsidyUsed := min totalUnits subsidyConfig.limitUnits
    slabCrossed := decide (totalUnits > subsidyConfig.limitUnits)
    projectedBill := projectedBillTotal.total
    projectedUnits := projectedUnits
    confidenceScore := confidenceScore
    isStabilized := isStabilized
    estRemainderCost := estRemainderCost }

/-- The effective limit of DailyCalendar.tsx line 66:
`subsidyConfig.limitUnits || Infinity`, i.e. `none` models `Infinity`
when `limitUnits` is the falsy 0. -/
def effectiveLimit (subsidyConfig : SubsidyConfig) : Option ℚ :=
  if subsidyConfig.limitUnits = 0 then Option.none else some subsidyConfig.limitUnits

/-- The status branch of DailyCalendar.tsx lines 79–81 for a logged day,
with `Option.none` as the `Infinity` limit (any finite cumulative total
compares below it). -/
def classify (cum : ℚ) : Option ℚ → DayStatus
  | Option.none => DayStatus.safe
  | some l =>
      if cum ≥ l then DayStatus.critical
      else if cum ≥ (85 / 100) * l then DayStatus.warning
      else DayStatus.safe

/-- `monthLogs.find(l => l.date === dateStr)` (DailyCalendar.tsx line 70). -/
def findLog (ml : List UserDailyUsage) (dateStr : String) : Option UserDailyUsage :=
  ml.find? (fun l => l.date == dateStr)

/-- `if (log) cumulativeUnits += log.totalUnits` (DailyCalendar.tsx
lines 73–75). -/
def stepCum (cum : ℚ) : Option UserDailyUsage → ℚ
  | some l => cum + l.totalUnits
  | Option.none => cum

/-- Build one calendar cell for day `j` given the cumulative units before
day `j` (DailyCalendar.tsx lines 69–91); `tdStr` is today's date string,
with day-granular string comparison standing for the `Date` comparisons. -/
def mkCalDay (ml : List UserDailyUsage) (ym : String) (lim : Option ℚ)
    (tdStr : String) (j : Nat) (cum : ℚ) : CalDay :=
  let dateStr := dateStrOf ym j
  let log := findLog ml dateStr
  let cum2 := stepCum cum log
  { date := dateStr
    dayNum := j
    log := log
    status :=
      match log with
      | some _ => classify cum2 lim
      | Option.none => DayStatus.noStatus
    isFuture := strLt tdStr dateStr
    isEstimated := strLt dateStr tdStr && log.isNone }

/-- The `for` loop of DailyCalendar.tsx lines 68–92: day counter `j`,
`k` days remaining, running cumulative `cum`. -/
def calendarLoop (ml : List UserDailyUsage) (ym : String) (lim : Option ℚ)
    (tdStr : String) : Nat → Nat → ℚ → List CalDay
  | _, 0, _ => []
  | j, Nat.succ k, cum =>
      mkCalDay ml ym lim tdStr j cum ::
        calendarLoop ml ym lim tdStr (j + 1) k (stepCum cum (findLog ml (dateStrOf ym j)))

/-- The `calendarDays` memo of DailyCalendar.tsx lines 63–94, with the
wall clock made the explicit argument `today`. -/
def calendarDays (logs : List UserDailyUsage) (subsidyConfig : SubsidyConfig)
    (today : CalendarDate) : List CalDay :=
  let ml := monthLogs logs today
  let lim := effectiveLimit subsidyConfig
  calendarLoop ml (monthString today) lim (dateString today) 1 (daysInMonthOf today) 0

/-- Units of the log found for day `j` of month `ym` (0 when unlogged). -/
def foundUnits (ml : List UserDailyUsage) (ym : String) (j : Nat) : ℚ :=
  stepCum 0 (findLog ml (dateStrOf ym j))

/-- Units accumulated over the `t` days `j, j+1, …, j+t−1`. -/
def preSum (ml : List UserDailyUsage) (ym : String) (j t : Nat) : ℚ :=
  ((List.range t).map (fun s => foundUnits ml ym (j + s))).sum

/-- Cumulative logged units of days 1 through `i` of the month of `today`. -/
def cumulativeUnitsThrough (logs : List UserDailyUsage) (today : CalendarDate) (i : Nat) : ℚ :=
  preSum (monthLogs logs today) (monthString today) 1 i

end DailyCalendar

/-- `handleSaveLog` from the App component (src/unnamed/part_000 lines
110–116): replace the log of an already-logged date in place, otherwise
append the new log. -/
def saveLog (prev : List UserDailyUsage) (log : UserDailyUsage) : List UserDailyUsage :=
  match prev.find? (fun l => l.date == log.date) with
  | some _ => prev.map (fun l => if l.date == log.date then log else l)
  | Option.none => prev ++ [log]

/-- The day-status classifier exactly as the spec words it (for comparison
with the code's `classify`): cumulative `< 0.85×limit` → safe,
`[0.85×limit, limit)` → warning, `≥ limit` → critical, the limit taken
directly from the subsidy configuration. -/
def specClassify (cum limit : ℚ) : DayStatus :=
  if cum < (85 / 100) * limit then DayStatus.safe
  else if cum < limit then DayStatus.warning
  else DayStatus.critical


/-- Example tariff from the spec's test scenario (§8): slabs 0–100 at 3,
100–300 at 5, 300+ at 7, fixed charge 50. -/
def exTariff : StateTariff :=
  { fixedCharge := 50
    slabs := [{ lo := 0, hi := some 100, rate := 3 },
              { lo := 100, hi := some 300, rate := 5 },
              { lo := 300, hi := Option.none, rate := 7 }] }

/-- A bare daily log with the given date and units. -/
def mkSimpleLog (d : String) (u : ℚ) : UserDailyUsage :=
  { date := d, totalUnits := u, totalCost := 0, isEstimated := false }

/-- Ten logged days of 8 units each in September 2024 (a 30-day month). -/
def septLogs : List UserDailyUsage :=
  [mkSimpleLog "2024-09-01" 8, mkSimpleLog "2024-09-02" 8, mkSimpleLog "2024-09-03" 8,
   mkSimpleLog "2024-09-04" 8, mkSimpleLog "2024-09-05" 8, mkSimpleLog "2024-09-06" 8,
   mkSimpleLog "2024-09-07" 8, mkSimpleLog "2024-09-08" 8, mkSimpleLog "2024-09-09" 8,
   mkSimpleLog "2024-09-10" 8]

/-- A mid-September 2024 reference date. -/
def septMid : CalendarDate := { year := 2024, month := 9, day := 15 }

/-- A government subsidy whose limit is the falsy 0 (the UI default when
subsidy is first configured, src/unnamed/part_000 line 39). -/
def zeroLimitSub : SubsidyConfig := { type := SubsidyType.government, limitUnits := 0 }

/-- A government subsidy with a 50-unit limit. -/
def sub50 : SubsidyConfig := { type := SubsidyType.government, limitUnits := 50 }

/-- A single 10-unit log on 2024-09-05. -/
def oneLogSept : List UserDailyUsage := [mkSimpleLog "2024-09-05" 10]

/-- A single 5-unit log on 2024-01-15. -/
def oneLogJan : List UserDailyUsage := [mkSimpleLog "2024-01-15" 5]

/-- The spec's standard-mode example appliance: 1000 W cooling, 5 h/day,
30 days, quantity 1 (§8). -/
def exCoolingAppliance : Appliance :=
  { category := ApplianceCategory.cooling, watts := 1000, hoursPerDay := 5,
    daysPerMonth := 30, quantity := 1, inputMode := EnergyMode.standard,
    annualUnits := 0, capacityTon := 0, iseerValue := 1, eerValue := 1 }

/-- The same appliance with a season-invariant category (electronics). -/
def exElectronicsAppliance : Appliance :=
  { exCoolingAppliance with category := ApplianceCategory.electronics }

namespace DailyCalendar

theorem stepCum_eq_add (c : ℚ) (o : Option UserDailyUsage) :
    stepCum c o = c + stepCum 0 o := by
  cases o <;> simp [stepCum]

theorem preSum_zero (ml : List UserDailyUsage) (ym : String) (j : Nat) :
    preSum ml ym j 0 = 0 := by
  simp [preSum]

theorem preSum_succ_left (ml : List UserDailyUsage) (ym : String) (j t : Nat) :
    preSum ml ym j (t + 1) = foundUnits ml ym j + preSum ml ym (j + 1) t := by
  have hfun : ((fun s => foundUnits ml ym (j + s)) ∘ Nat.succ) =
      (fun s => foundUnits ml ym (j + 1 + s)) := by
    funext s
    simp only [Function.comp_apply]
    congr 1
    omega
  rw [preSum, List.range_succ_eq_map, List.map_cons, List.sum_cons, List.map_map, Nat.add_zero,
    hfun, preSum]

theorem preSum_succ_right (ml : List UserDailyUsage) (ym : String) (j t : Nat) :
    preSum ml ym j (t + 1) = preSum ml ym j t + foundUnits ml ym (j + t) := by
  rw [preSum, List.range_succ, List.map_append, List.sum_append, preSum]
  simp

theorem calendarLoop_eq_map (ml : List UserDailyUsage) (ym : String) (lim : Option ℚ)
    (tdStr : String) (k : Nat) :
    ∀ (j : Nat) (c : ℚ),
      calendarLoop ml ym lim tdStr j k c =
        (List.range k).map
          (fun t => mkCalDay ml ym lim tdStr (j + t) (c + preSum ml ym j t)) := by
  induction k with
  | zero => intro j c; simp [calendarLoop]
  | succ k ih =>
      intro j c
      rw [calendarLoop, ih (j + 1) (stepCum c (findLog ml (dateStrOf ym j)))]
      rw [List.range_succ_eq_map, List.map_cons, List.map_map]
      have hfun : ((fun t => mkCalDay ml ym lim tdStr (j + t) (c + preSum ml ym j t)) ∘ Nat.succ) =
          (fun t => mkCalDay ml ym lim tdStr (j + 1 + t)
            (stepCum c (findLog ml (dateStrOf ym j)) + preSum ml ym (j + 1) t)) := by
        funext t
        simp only [Function.comp_apply]
        have h1 : j + Nat.succ t = j + 1 + t := by omega
        rw [h1]
        congr 1
        rw [stepCum_eq_add]
        have hfu : stepCum 0 (findLog ml (dateStrOf ym j)) = foundUnits ml ym j := rfl
        have h2 : t + 1 = Nat.succ t := rfl
        rw [hfu, ← h2, preSum_succ_left]
        ring
      rw [hfun]
      congr 1
      rw [Nat.add_zero, preSum_zero, add_zero]

end DailyCalendar

namespace DailyCalendar

theorem calendarDays_get (logs : List UserDailyUsage) (sub : SubsidyConfig)
    (today : CalendarDate) (i : Nat) (hi : i < daysInMonthOf today) :
    (calendarDays logs sub today).get? i =
      some (mkCalDay (monthLogs logs today) (monthString today) (effectiveLimit sub)
        (dateString today) (1 + i) (preSum (monthLogs logs today) (monthString today) 1 i)) := by
  rw [calendarDays, calendarLoop_eq_map, List.get?_map, List.get?_range hi]
  simp [preSum_zero]

theorem classify_eq_specClassify (c l : ℚ) (hl : 0 < l) :
    classify c (some l) = specClassify c l := by
  rw [classify, specClassify]
  by_cases h1 : c ≥ l
  · have h2 : ¬ c < (85 / 100) * l := by nlinarith
    have h3 : ¬ c < l := not_lt.mpr h1
    simp [h1, h2, h3]
  · by_cases h4 : c ≥ (85 / 100) * l
    · have h5 : ¬ c < (85 / 100) * l := not_lt.mpr h4
      have h6 : c < l := lt_of_not_ge h1
      simp [h1, h4, h5, h6]
    · have h7 : c < (85 / 100) * l := lt_of_not_ge h4
      simp [h1, h4, h7]

end DailyCalendar

/-- C1 (amended: the subsidy limit must be positive, because the code of
DailyCalendar.tsx line 66 replaces the falsy limit 0 by `Infinity` and a
negative limit changes the order of the threshold tests): for a positive
subsidy limit, every calendar day that has a log is classified by the
cumulative logged units up to and including that day — strictly below
0.85×limit is safe, in [0.85×limit, limit) is warning, at or above the
limit is critical — and a day with no log receives no status. -/
theorem calendarDays_status_spec (logs : List UserDailyUsage) (sub : SubsidyConfig)
    (today : CalendarDate) (hL : 0 < sub.limitUnits) (i : Nat) (h1 : 1 ≤ i)
    (h2 : i ≤ DailyCalendar.daysInMonthOf today) :
    ∃ d : CalDay,
      (DailyCalendar.calendarDays logs sub today).get? (i - 1) = some d ∧
      d.log = DailyCalendar.findLog (DailyCalendar.monthLogs logs today)
                (dateStrOf (monthString today) i) ∧
      (d.log.isSome = true →
        d.status = specClassify (DailyCalendar.cumulativeUnitsThrough logs today i)
          sub.limitUnits) ∧
      (d.log = Option.none → d.status = DayStatus.noStatus) := by
  have hi : i - 1 < DailyCalendar.daysInMonthOf today := by omega
  have hget := DailyCalendar.calendarDays_get logs sub today (i - 1) hi
  have hIdx : 1 + (i - 1) = i := by omega
  rw [hIdx] at hget
  have hlim : DailyCalendar.effectiveLimit sub = some sub.limitUnits := by
    rw [DailyCalendar.effectiveLimit, if_neg hL.ne']
  refine ⟨_, hget, rfl, ?_, ?_⟩
  · intro hsome
    cases hfind : DailyCalendar.findLog (DailyCalendar.monthLogs logs today)
        (dateStrOf (monthString today) i) with
    | none =>
        exfalso
        rw [show (DailyCalendar.mkCalDay (DailyCalendar.monthLogs logs today) (monthString today)
          (DailyCalendar.effectiveLimit sub) (dateString today) i
          (DailyCalendar.preSum (DailyCalendar.monthLogs logs today) (monthString today) 1 (i - 1))).log
          = DailyCalendar.findLog (DailyCalendar.monthLogs logs today)
              (dateStrOf (monthString today) i) from rfl, hfind] at hsome
        simp at hsome
    | some l =>
        have hstat : (DailyCalendar.mkCalDay (DailyCalendar.monthLogs logs today) (monthString today)
            (DailyCalendar.effectiveLimit sub) (dateString today) i
            (DailyCalendar.preSum (DailyCalendar.monthLogs logs today) (monthString today) 1 (i - 1))).status
            = DailyCalendar.classify
                (DailyCalendar.stepCum
                  (DailyCalendar.preSum (DailyCalendar.monthLogs logs today) (monthString today) 1 (i - 1))
                  (DailyCalendar.findLog (DailyCalendar.monthLogs logs today)
                    (dateStrOf (monthString today) i)))
                (DailyCalendar.effectiveLimit sub) := by
          rw [DailyCalendar.mkCalDay, hfind]
        have h3 : i = (i - 1) + 1 := by omega
        have hps : DailyCalendar.preSum (DailyCalendar.monthLogs logs today) (monthString today) 1 i
            = DailyCalendar.preSum (DailyCalendar.monthLogs logs today) (monthString today) 1 (i - 1)
              + l.totalUnits := by
          calc DailyCalendar.preSum (DailyCalendar.monthLogs logs today) (monthString today) 1 i
              = DailyCalendar.preSum (DailyCalendar.monthLogs logs today) (monthString today) 1
                  ((i - 1) + 1) := by rw [← h3]
            _ = DailyCalendar.preSum (DailyCalendar.monthLogs logs today) (monthString today) 1 (i - 1)
                  + DailyCalendar.foundUnits (DailyCalendar.monthLogs logs today) (monthString today)
                      (1 + (i - 1)) := DailyCalendar.preSum_succ_right _ _ _ _
            _ = DailyCalendar.preSum (DailyCalendar.monthLogs logs today) (monthString today) 1 (i - 1)
                  + l.totalUnits := by
                rw [hIdx, DailyCalendar.foundUnits, hfind, DailyCalendar.stepCum, zero_add]
        have hcum : DailyCalendar.cumulativeUnitsThrough logs today i
            = DailyCalendar.stepCum
                (DailyCalendar.preSum (DailyCalendar.monthLogs logs today) (monthString today) 1 (i - 1))
                (some l) := by
          rw [DailyCalendar.cumulativeUnitsThrough, hps, DailyCalendar.stepCum]
        rw [hstat, hfind, hlim, hcum]
        exact DailyCalendar.classify_eq_specClassify _ _ hL
  · intro hnone
    have hlg : (DailyCalendar.mkCalDay (DailyCalendar.monthLogs logs today) (monthString today)
        (DailyCalendar.effectiveLimit sub) (dateString today) i
        (DailyCalendar.preSum (DailyCalendar.monthLogs logs today) (monthString today) 1 (i - 1))).log
        = DailyCalendar.findLog (DailyCalendar.monthLogs logs today)
            (dateStrOf (monthString today) i) := rfl
    rw [hlg] at hnone
    rw [DailyCalendar.mkCalDay, hnone]

/-- Witness for C1 at ten 8-unit September days with a 50-unit limit,
day 6 (cumulative 48 = 0.96×limit → warning band applies). -/
theorem calendarDays_status_spec_witness :
    (0 : ℚ) < sub50.limitUnits ∧ 1 ≤ 6 ∧ 6 ≤ DailyCalendar.daysInMonthOf septMid ∧
    (∃ d : CalDay,
      (DailyCalendar.calendarDays septLogs sub50 septMid).get? (6 - 1) = some d ∧
      d.log = DailyCalendar.findLog (DailyCalendar.monthLogs septLogs septMid)
                (dateStrOf (monthString septMid) 6) ∧
      (d.log.isSome = true →
        d.status = specClassify (DailyCalendar.cumulativeUnitsThrough septLogs septMid 6)
          sub50.limitUnits) ∧
      (d.log = Option.none → d.status = DayStatus.noStatus)) :=
  ⟨by norm_num [sub50], by norm_num, by decide,
   calendarDays_status_spec septLogs sub50 septMid (by norm_num [sub50]) 6 (by norm_num) (by decide)⟩

/-- Counterexample to C1 as stated: with a zero subsidy limit (the default
configuration) and a single 10-unit log on 2024-09-05, the claim's
classification demands critical (10 ≥ limit = 0) but the code renders the
day safe, because `limitUnits || Infinity` turns the limit into infinity. -/
theorem c1_counterexample :
    ((DailyCalendar.calendarDays oneLogSept zeroLimitSub septMid).get? 4).map CalDay.status
      = some DayStatus.safe ∧
    specClassify (DailyCalendar.cumulativeUnitsThrough oneLogSept septMid 5)
      zeroLimitSub.limitUnits = DayStatus.critical ∧
    DayStatus.safe ≠ DayStatus.critical := by
  refine ⟨?_, ?_, by decide⟩
  · have hget := DailyCalendar.calendarDays_get oneLogSept zeroLimitSub septMid 4 (by decide)
    rw [hget]
    have hfind : DailyCalendar.findLog (DailyCalendar.monthLogs oneLogSept septMid)
        (dateStrOf (monthString septMid) (1 + 4)) = some (mkSimpleLog "2024-09-05" 10) := by
      simp +decide [DailyCalendar.findLog, DailyCalendar.monthLogs, oneLogSept, sortByDate,
        insertByDate, mkSimpleLog, monthString, septMid, pad2, dateStrOf]
    have hlim : DailyCalendar.effectiveLimit zeroLimitSub = Option.none := by
      simp [DailyCalendar.effectiveLimit, zeroLimitSub]
    simp only [Option.map_some', DailyCalendar.mkCalDay, hfind, hlim, DailyCalendar.classify]
  · have hcum : DailyCalendar.cumulativeUnitsThrough oneLogSept septMid 5 = 10 := by
      simp +decide [DailyCalendar.cumulativeUnitsThrough, DailyCalendar.preSum,
        DailyCalendar.foundUnits, DailyCalendar.findLog, DailyCalendar.monthLogs, oneLogSept,
        sortByDate, insertByDate, mkSimpleLog, monthString, septMid, pad2, dateStrOf,
        List.range_succ, DailyCalendar.stepCum]
    rw [hcum]
    norm_num [specClassify, zeroLimitSub]

/-- C10: when `subsidyConfig.limitUnits` is 0 the calendar treats the
limit as infinite — every day with a log is safe, no day is warning or
critical, and a day with no log has no status — even while the summary's
`slabCrossed` is true for the same configuration whenever any units were
logged this month. -/
theorem calendarDays_zero_limit (logs : List UserDailyUsage) (sub : SubsidyConfig)
    (today : CalendarDate) (tariff : StateTariff) (inv : List Appliance) (season : Season)
    (h0 : sub.limitUnits = 0) :
    (∀ d ∈ DailyCalendar.calendarDays logs sub today,
        (d.log.isSome = true → d.status = DayStatus.safe) ∧
        (d.log = Option.none → d.status = DayStatus.noStatus)) ∧
    (0 < (DailyCalendar.summary logs tariff inv sub season today).totalUnits →
        (DailyCalendar.summary logs tariff inv sub season today).slabCrossed = true) := by
  have hlim : DailyCalendar.effectiveLimit sub = Option.none := by
    simp [DailyCalendar.effectiveLimit, h0]
  constructor
  · intro d hd
    rw [DailyCalendar.calendarDays, DailyCalendar.calendarLoop_eq_map, hlim] at hd
    obtain ⟨t, ht, rfl⟩ := List.mem_map.mp hd
    constructor
    · intro hsome
      cases hfind : DailyCalendar.findLog (DailyCalendar.monthLogs logs today)
          (dateStrOf (monthString today) (1 + t)) with
      | none =>
          exfalso
          rw [show (DailyCalendar.mkCalDay (DailyCalendar.monthLogs logs today) (monthString today)
            Option.none (dateString today) (1 + t)
            (0 + DailyCalendar.preSum (DailyCalendar.monthLogs logs today) (monthString today) 1 t)).log
            = DailyCalendar.findLog (DailyCalendar.monthLogs logs today)
                (dateStrOf (monthString today) (1 + t)) from rfl, hfind] at hsome
          simp at hsome
      | some l =>
          simp only [DailyCalendar.mkCalDay, hfind, DailyCalendar.classify]
    · intro hnone
      rw [show (DailyCalendar.mkCalDay (DailyCalendar.monthLogs logs today) (monthString today)
        Option.none (dateString today) (1 + t)
        (0 + DailyCalendar.preSum (DailyCalendar.monthLogs logs today) (monthString today) 1 t)).log
        = DailyCalendar.findLog (DailyCalendar.monthLogs logs today)
            (dateStrOf (monthString today) (1 + t)) from rfl] at hnone
      simp only [DailyCalendar.mkCalDay, hnone]
  · intro h
    have htot : (DailyCalendar.summary logs tariff inv sub season today).totalUnits
        = DailyCalendar.monthTotal logs today := rfl
    rw [htot] at h
    show decide (DailyCalendar.monthTotal logs today > sub.limitUnits) = true
    rw [h0]
    exact decide_eq_true h

/-- Witness for C10: one 10-unit log, zero-limit government subsidy; all
logged days are safe yet `slabCrossed` is true. -/
theorem calendarDays_zero_limit_witness :
    zeroLimitSub.limitUnits = 0 ∧
    (∀ d ∈ DailyCalendar.calendarDays oneLogSept zeroLimitSub septMid,
        (d.log.isSome = true → d.status = DayStatus.safe) ∧
        (d.log = Option.none → d.status = DayStatus.noStatus)) ∧
    (DailyCalendar.summary oneLogSept exTariff [] zeroLimitSub Season.summer septMid).slabCrossed
      = true := by
  have h := calendarDays_zero_limit oneLogSept zeroLimitSub septMid exTariff [] Season.summer rfl
  refine ⟨rfl, h.1, h.2 ?_⟩
  have htot : (DailyCalendar.summary oneLogSept exTariff [] zeroLimitSub Season.summer
      septMid).totalUnits = 10 := by
    simp +decide [DailyCalendar.summary, DailyCalendar.monthTotal, DailyCalendar.monthLogs,
      oneLogSept, sortByDate, insertByDate, mkSimpleLog, monthString, septMid, pad2]
  rw [htot]
  norm_num

theorem daysInGregorianMonth_pos (y m : Nat) : 0 < daysInGregorianMonth y m := by
  rw [daysInGregorianMonth]
  split_ifs <;> norm_num

theorem summary_confidence_eq (logs : List UserDailyUsage) (tariff : StateTariff)
    (inv : List Appliance) (sub : SubsidyConfig) (season : Season) (today : CalendarDate) :
    (DailyCalendar.summary logs tariff inv sub season today).confidenceScore
      = if DailyCalendar.daysLoggedCount logs today ≥ 10 then
          some (min 99 (65 + ((DailyCalendar.daysLoggedCount logs today : ℚ)
            / (DailyCalendar.daysInMonthOf today : ℚ)) * 35))
        else Option.none := rfl

/-- C2: the monthly summary's confidence score is null below 10 logged
days, otherwise min(99, 65 + (daysLogged/daysInMonth)×35); it never
exceeds 99 and is monotonically increasing in the number of logged days. -/
theorem summary_confidence_spec (logs : List UserDailyUsage) (tariff : StateTariff)
    (inv : List Appliance) (sub : SubsidyConfig) (season : Season) (today : CalendarDate) :
    (DailyCalendar.daysLoggedCount logs today < 10 →
      (DailyCalendar.summary logs tariff inv sub season today).confidenceScore = Option.none) ∧
    (10 ≤ DailyCalendar.daysLoggedCount logs today →
      (DailyCalendar.summary logs tariff inv sub season today).confidenceScore
        = some (min 99 (65 + ((DailyCalendar.daysLoggedCount logs today : ℚ)
            / (DailyCalendar.daysInMonthOf today : ℚ)) * 35))) ∧
    (∀ x : ℚ, (DailyCalendar.summary logs tariff inv sub season today).confidenceScore = some x →
      x ≤ 99) ∧
    (∀ logs₂ : List UserDailyUsage,
      DailyCalendar.daysLoggedCount logs today ≤ DailyCalendar.daysLoggedCount logs₂ today →
      ∀ x y : ℚ,
        (DailyCalendar.summary logs tariff inv sub season today).confidenceScore = some x →
        (DailyCalendar.summary logs₂ tariff inv sub season today).confidenceScore = some y →
        x ≤ y) := by
  refine ⟨?_, ?_, ?_, ?_⟩
  · intro h
    rw [summary_confidence_eq, if_neg (by omega)]
  · intro h
    rw [summary_confidence_eq, if_pos (by omega)]
  · intro x hx
    rw [summary_confidence_eq] at hx
    by_cases h : DailyCalendar.daysLoggedCount logs today ≥ 10
    · rw [if_pos h] at hx
      have := Option.some.inj hx
      rw [← this]
      exact min_le_left _ _
    · rw [if_neg h] at hx
      exact absurd hx (by simp)
  · intro logs₂ hle x y hx hy
    rw [summary_confidence_eq] at hx hy
    by_cases h1 : DailyCalendar.daysLoggedCount logs today ≥ 10
    · have h2 : DailyCalendar.daysLoggedCount logs₂ today ≥ 10 := by omega
      rw [if_pos h1] at hx
      rw [if_pos h2] at hy
      have hxe := Option.some.inj hx
      have hye := Option.some.inj hy
      rw [← hxe, ← hye]
      have hD : (0 : ℚ) < (DailyCalendar.daysInMonthOf today : ℚ) := by
        exact_mod_cast daysInGregorianMonth_pos today.year today.month
      have hq : (DailyCalendar.daysLoggedCount logs today : ℚ)
          / (DailyCalendar.daysInMonthOf today : ℚ)
          ≤ (DailyCalendar.daysLoggedCount logs₂ today : ℚ)
            / (DailyCalendar.daysInMonthOf today : ℚ) := by
        apply (div_le_div_right hD).mpr
        exact_mod_cast hle
      apply min_le_min (le_refl (99 : ℚ))
      nlinarith
    · rw [if_neg h1] at hx
      exact absurd hx (by simp)

/-- Witness for C2: ten logged days in a 30-day month; the score is
min(99, 65 + (10/30)×35) = 230/3 ≈ 76.67. -/
theorem summary_confidence_spec_witness :
    10 ≤ DailyCalendar.daysLoggedCount septLogs septMid ∧
    (DailyCalendar.summary septLogs exTariff [] zeroLimitSub Season.summer septMid).confidenceScore
      = some (min 99 (65 + ((DailyCalendar.daysLoggedCount septLogs septMid : ℚ)
          / (DailyCalendar.daysInMonthOf septMid : ℚ)) * 35)) ∧
    min (99 : ℚ) (65 + ((10 : ℚ) / 30) * 35) = 230 / 3 := by
  refine ⟨by decide,
    (summary_confidence_spec septLogs exTariff [] zeroLimitSub Season.summer septMid).2.1
      (by decide), by norm_num⟩

/-- C3: for every set of daily logs and every subsidy configuration —
whatever the subsidy type, including `none` — the summary's `slabCrossed`
is exactly the comparison month-to-date totalUnits > limitUnits. -/
theorem summary_slabCrossed_spec (logs : List UserDailyUsage) (tariff : StateTariff)
    (inv : List Appliance) (sub : SubsidyConfig) (season : Season) (today : CalendarDate) :
    (DailyCalendar.summary logs tariff inv sub season today).slabCrossed = true
      ↔ DailyCalendar.monthTotal logs today > sub.limitUnits := by
  show decide (DailyCalendar.monthTotal logs today > sub.limitUnits) = true
    ↔ DailyCalendar.monthTotal logs today > sub.limitUnits
  exact decide_eq_true_iff

/-- C4: with at least one logged day the projection uses the observed
average (totalUnits/daysLogged); with none it falls back to the appliance
model applied to the whole inventory divided by 30; in both cases
projectedUnits is the average times daysInMonth. -/
theorem summary_projection_spec (logs : List UserDailyUsage) (tariff : StateTariff)
    (inv : List Appliance) (sub : SubsidyConfig) (season : Season) (today : CalendarDate) :
    (0 < DailyCalendar.daysLoggedCount logs today →
      (DailyCalendar.summary logs tariff inv sub season today).projectedUnits
        = DailyCalendar.monthTotal logs today / (DailyCalendar.daysLoggedCount logs today : ℚ)
          * (DailyCalendar.daysInMonthOf today : ℚ)) ∧
    (DailyCalendar.daysLoggedCount logs today = 0 →
      (DailyCalendar.summary logs tariff inv sub season today).projectedUnits
        = (inv.map (fun a => calculateApplianceUnits a season)).sum / 30
          * (DailyCalendar.daysInMonthOf today : ℚ)) := by
  have hp : (DailyCalendar.summary logs tariff inv sub season today).projectedUnits
      = (if DailyCalendar.daysLoggedCount logs today > 0 then
          DailyCalendar.monthTotal logs today / (DailyCalendar.daysLoggedCount logs today : ℚ)
        else (inv.map (fun a => calculateApplianceUnits a season / 30)).sum)
        * (DailyCalendar.daysInMonthOf today : ℚ) := rfl
  constructor
  · intro h
    rw [hp, if_pos h]
  · intro h
    rw [hp, if_neg (by omega)]
    congr 1
    simp only [div_eq_mul_inv]
    rw [List.sum_map_mul_right]

/-- Witness for C4 on the logged branch: ten 8-unit days project
(80/10)×30 = 240 units. -/
theorem summary_projection_spec_witness :
    0 < DailyCalendar.daysLoggedCount septLogs septMid ∧
    (DailyCalendar.summary septLogs exTariff [] zeroLimitSub Season.summer septMid).projectedUnits
      = DailyCalendar.monthTotal septLogs septMid
        / (DailyCalendar.daysLoggedCount septLogs septMid : ℚ)
        * (DailyCalendar.daysInMonthOf septMid : ℚ) :=
  ⟨by decide,
   (summary_projection_spec septLogs exTariff [] zeroLimitSub Season.summer septMid).1 (by decide)⟩

/-- Counterexample to C5 as stated: the component's summary is NOT a
function of its props alone. `today` here models the hidden
`new Date()` reading of DailyCalendar.tsx lines 23–24 (it is not among
the component's props): with identical logs, tariff, inventory, subsidy
and season, moving the clock from January to February 2024 changes
`totalUnits` from 5 to 0, so the code depends on the system clock. -/
theorem summary_depends_on_wall_clock :
    (DailyCalendar.summary oneLogJan exTariff [] zeroLimitSub Season.summer
        { year := 2024, month := 1, day := 20 }).totalUnits = 5 ∧
    (DailyCalendar.summary oneLogJan exTariff [] zeroLimitSub Season.summer
        { year := 2024, month := 2, day := 20 }).totalUnits = 0 ∧
    (5 : ℚ) ≠ 0 := by
  refine ⟨?_, ?_, by norm_num⟩ <;>
    simp +decide [DailyCalendar.summary, DailyCalendar.monthTotal, DailyCalendar.monthLogs,
      oneLogJan, sortByDate, insertByDate, mkSimpleLog, monthString, pad2]

/-- C5 (amended: the wall-clock reading must be an explicit reference-date
argument, as the spec's §9 prescribes): once `today` is passed explicitly,
every engine function is deterministic — identical arguments, including
the reference date, give identical summaries, calendar classifications,
bills, subsidy splits, appliance units and full calculations. -/
theorem engine_deterministic
    (logs₁ logs₂ : List UserDailyUsage) (tariff₁ tariff₂ : StateTariff)
    (inv₁ inv₂ : List Appliance) (sub₁ sub₂ : SubsidyConfig) (season₁ season₂ : Season)
    (today₁ today₂ : CalendarDate) (solar₁ solar₂ : SolarConfig)
    (u₁ u₂ : ℚ) (a₁ a₂ : Appliance)
    (hlogs : logs₁ = logs₂) (htar : tariff₁ = tariff₂) (hinv : inv₁ = inv₂)
    (hsub : sub₁ = sub₂) (hsea : season₁ = season₂) (htd : today₁ = today₂)
    (hsol : solar₁ = solar₂) (hu : u₁ = u₂) (ha : a₁ = a₂) :
    DailyCalendar.summary logs₁ tariff₁ inv₁ sub₁ season₁ today₁
      = DailyCalendar.summary logs₂ tariff₂ inv₂ sub₂ season₂ today₂ ∧
    DailyCalendar.calendarDays logs₁ sub₁ today₁
      = DailyCalendar.calendarDays logs₂ sub₂ today₂ ∧
    calculateProgressiveBill u₁ tariff₁ = calculateProgressiveBill u₂ tariff₂ ∧
    applySubsidy u₁ sub₁ = applySubsidy u₂ sub₂ ∧
    calculateApplianceUnits a₁ season₁ = calculateApplianceUnits a₂ season₂ ∧
    getFullCalculation inv₁ tariff₁ solar₁ sub₁ season₁
      = getFullCalculation inv₂ tariff₂ solar₂ sub₂ season₂ := by
  subst hlogs htar hinv hsub hsea htd hsol hu ha
  exact ⟨rfl, rfl, rfl, rfl, rfl, rfl⟩

/-- Witness for C5 at one concrete argument tuple. -/
theorem engine_deterministic_witness :
    DailyCalendar.summary septLogs exTariff [] sub50 Season.summer septMid
      = DailyCalendar.summary septLogs exTariff [] sub50 Season.summer septMid ∧
    DailyCalendar.calendarDays septLogs sub50 septMid
      = DailyCalendar.calendarDays septLogs sub50 septMid ∧
    calculateProgressiveBill 250 exTariff = calculateProgressiveBill 250 exTariff ∧
    applySubsidy 250 sub50 = applySubsidy 250 sub50 ∧
    calculateApplianceUnits exCoolingAppliance Season.summer
      = calculateApplianceUnits exCoolingAppliance Season.summer ∧
    getFullCalculation [] exTariff { isInstalled := false, ratingKw := 3 } sub50 Season.summer
      = getFullCalculation [] exTariff { isInstalled := false, ratingKw := 3 } sub50 Season.summer :=
  engine_deterministic septLogs septLogs exTariff exTariff [] [] sub50 sub50
    Season.summer Season.summer septMid septMid
    { isInstalled := false, ratingKw := 3 } { isInstalled := false, ratingKw := 3 }
    250 250 exCoolingAppliance exCoolingAppliance
    rfl rfl rfl rfl rfl rfl rfl rfl rfl

/-- C6: for u ≥ 0 and a government/company subsidy with limit L,
applySubsidy splits u as subsidizedUnits + billableUnits = u with
billableUnits = max(0, u − L), subsidizedUnits = min(u, L) and
remainingSubsidyUnits = max(0, L − u); for type `none` the units pass
through unsubsidized. -/
theorem applySubsidy_spec (u : ℚ) (cfg : SubsidyConfig) (hu : 0 ≤ u) :
    (cfg.type = SubsidyType.government ∨ cfg.type = SubsidyType.company →
      (applySubsidy u cfg).subsidizedUnits + (applySubsidy u cfg).billableUnits = u ∧
      (applySubsidy u cfg).billableUnits = max 0 (u - cfg.limitUnits) ∧
      (applySubsidy u cfg).subsidizedUnits = min u cfg.limitUnits ∧
      (applySubsidy u cfg).remainingSubsidyUnits = max 0 (cfg.limitUnits - u)) ∧
    (cfg.type = SubsidyType.noSubsidy →
      (applySubsidy u cfg).billableUnits = u ∧
      (applySubsidy u cfg).subsidizedUnits = 0 ∧
      (applySubsidy u cfg).remainingSubsidyUnits = 0) := by
  constructor
  · intro htype
    have hgc : applySubsidy u cfg =
        { subsidizedUnits := min u cfg.limitUnits
          billableUnits := max 0 (u - cfg.limitUnits)
          remainingSubsidyUnits := max 0 (cfg.limitUnits - u) } := by
      rcases htype with h | h <;> rw [applySubsidy, h]
    rw [hgc]
    refine ⟨?_, rfl, rfl, rfl⟩
    rcases le_total u cfg.limitUnits with h | h
    · rw [min_eq_left h, max_eq_left (by linarith)]
      ring
    · rw [min_eq_right h, max_eq_right (by linarith)]
      ring
  · intro htype
    rw [applySubsidy, htype]
    exact ⟨rfl, rfl, rfl⟩

/-- Witness for C6: 120 units against a 50-unit government limit. -/
theorem applySubsidy_spec_witness :
    (0 : ℚ) ≤ 120 ∧
    (sub50.type = SubsidyType.government ∨ sub50.type = SubsidyType.company) ∧
    (applySubsidy 120 sub50).subsidizedUnits + (applySubsidy 120 sub50).billableUnits = 120 ∧
    (applySubsidy 120 sub50).billableUnits = max 0 (120 - sub50.limitUnits) ∧
    (applySubsidy 120 sub50).subsidizedUnits = min 120 sub50.limitUnits ∧
    (applySubsidy 120 sub50).remainingSubsidyUnits = max 0 (sub50.limitUnits - 120) :=
  ⟨by norm_num, Or.inl rfl,
   (applySubsidy_spec 120 sub50 (by norm_num)).1 (Or.inl rfl)⟩

/-- C7: in `standard` mode with non-negative inputs the monthly units are
watts × hoursPerDay × daysPerMonth × quantity / 1000, multiplied by the
seasonal multiplier exactly when the category is cooling or heating;
every other category draws the same units in every season. -/
theorem calculateApplianceUnits_standard_spec (a : Appliance) (s : Season)
    (hm : a.inputMode = EnergyMode.standard) (hw : 0 ≤ a.watts) (hh : 0 ≤ a.hoursPerDay)
    (hd : 0 ≤ a.daysPerMonth) (hq : 0 ≤ a.quantity) :
    calculateApplianceUnits a s
      = a.watts * a.hoursPerDay * a.daysPerMonth * a.quantity / 1000
        * (if a.category = ApplianceCategory.cooling ∨ a.category = ApplianceCategory.heating
           then seasonMultiplier s else 1) ∧
    (¬ (a.category = ApplianceCategory.cooling ∨ a.category = ApplianceCategory.heating) →
      ∀ s₁ s₂ : Season, calculateApplianceUnits a s₁ = calculateApplianceUnits a s₂) := by
  have hsens : ∀ c : ApplianceCategory, seasonSensitive c = true
      ↔ (c = ApplianceCategory.cooling ∨ c = ApplianceCategory.heating) := by
    intro c
    cases c <;> simp [seasonSensitive]
  constructor
  · rw [calculateApplianceUnits, hm]
    by_cases h : a.category = ApplianceCategory.cooling ∨ a.category = ApplianceCategory.heating
    · rw [if_pos ((hsens a.category).mpr h), if_pos h]
    · rw [if_neg ?_, if_neg h]
      intro hb
      exact h ((hsens a.category).mp hb)
  · intro h s₁ s₂
    have hb : seasonSensitive a.category = false := by
      rcases hfb : seasonSensitive a.category with _ | _
      · rfl
      · exact absurd ((hsens a.category).mp hfb) h
    rw [calculateApplianceUnits, calculateApplianceUnits, hm]
    simp [hb]

/-- Witness for C7: the spec's example — 1000 W cooling, 5 h/day, 30 days,
quantity 1, summer multiplier 1.2 gives 180 kWh; electronics give 150. -/
theorem calculateApplianceUnits_standard_spec_witness :
    exCoolingAppliance.inputMode = EnergyMode.standard ∧
    (0 : ℚ) ≤ exCoolingAppliance.watts ∧
    (calculateApplianceUnits exCoolingAppliance Season.summer
      = exCoolingAppliance.watts * exCoolingAppliance.hoursPerDay
        * exCoolingAppliance.daysPerMonth * exCoolingAppliance.quantity / 1000
        * (if exCoolingAppliance.category = ApplianceCategory.cooling
              ∨ exCoolingAppliance.category = ApplianceCategory.heating
           then seasonMultiplier Season.summer else 1)) ∧
    calculateApplianceUnits exCoolingAppliance Season.summer = 180 ∧
    calculateApplianceUnits exElectronicsAppliance Season.summer = 150 :=
  ⟨rfl, by norm_num [exCoolingAppliance],
   (calculateApplianceUnits_standard_spec exCoolingAppliance Season.summer rfl
      (by norm_num [exCoolingAppliance]) (by norm_num [exCoolingAppliance])
      (by norm_num [exCoolingAppliance]) (by norm_num [exCoolingAppliance])).1,
   by norm_num [calculateApplianceUnits, exCoolingAppliance, seasonSensitive, seasonMultiplier],
   by norm_num [calculateApplianceUnits, exElectronicsAppliance, exCoolingAppliance,
     seasonSensitive, seasonMultiplier]⟩

theorem energyAtZero (slabs : List TariffSlab) :
    ∀ lo : ℚ, 0 ≤ lo → checkSlabs lo slabs = true →
      (slabs.map (fun s => slabPortion 0 s * s.rate)).sum = 0 := by
  induction slabs with
  | nil =>
      intro lo _ hc
      rw [checkSlabs] at hc
      exact absurd hc (by simp)
  | cons s rest ih =>
      intro lo hlo hc
      cases rest with
      | nil =>
          rw [checkSlabs, Bool.and_eq_true] at hc
          obtain ⟨h1, h2⟩ := hc
          have hslo : s.lo = lo := beq_iff_eq.mp h1
          have hhi : s.hi = Option.none := beq_iff_eq.mp h2
          have hport : slabPortion 0 s = 0 := by
            simp only [slabPortion, hhi, hslo]
            exact max_eq_left (by linarith)
          rw [List.map_cons, List.sum_cons, List.map_nil, List.sum_nil, hport, zero_mul,
            add_zero]
      | cons r rs =>
          rw [checkSlabs, Bool.and_eq_true] at hc
          obtain ⟨h1, h2⟩ := hc
          have hslo : s.lo = lo := beq_iff_eq.mp h1
          cases hhi : s.hi with
          | none =>
              rw [hhi] at h2
              exact absurd h2 (by simp)
          | some m =>
              rw [hhi] at h2
              rw [Bool.and_eq_true, decide_eq_true_eq] at h2
              obtain ⟨hlm, hcheck⟩ := h2
              have hm0 : (0 : ℚ) ≤ m := le_of_lt (lt_of_le_of_lt hlo hlm)
              have hport : slabPortion 0 s = 0 := by
                simp only [slabPortion, hhi, hslo]
                rw [min_eq_left hm0]
                exact max_eq_left (by linarith)
              rw [List.map_cons, List.sum_cons, hport, zero_mul, zero_add]
              exact ih m hm0 hcheck

/-- C8: for every structurally valid tariff, an empty appliance list with
solar uninstalled and subsidy type `none` yields a valid result (no
configuration error) with zero total units and a total cost equal to the
tariff's fixed charge, which applies even at zero consumption. -/
theorem getFullCalculation_empty (tariff : StateTariff) (kw L : ℚ) (season : Season)
    (hv : validTariff tariff = true) :
    ∃ r : CalculationResult,
      getFullCalculation [] tariff { isInstalled := false, ratingKw := kw }
        { type := SubsidyType.noSubsidy, limitUnits := L } season = Except.ok r ∧
      r.totalUnits = 0 ∧ r.totalCost = tariff.fixedCharge := by
  rw [getFullCalculation, if_pos hv]
  refine ⟨_, rfl, ?_, ?_⟩
  · show inventoryUnits [] season = 0
    simp [inventoryUnits]
  · show (calculateProgressiveBill
        (applySubsidy
          (max 0 (inventoryUnits [] season
            - solarGenerated { isInstalled := false, ratingKw := kw }))
          { type := SubsidyType.noSubsidy, limitUnits := L }).billableUnits tariff).total
      = tariff.fixedCharge
    have hnet : max 0 (inventoryUnits ([] : List Appliance) season
        - solarGenerated { isInstalled := false, ratingKw := kw }) = (0 : ℚ) := by
      simp [inventoryUnits, solarGenerated]
    have hbill : (applySubsidy
        (max 0 (inventoryUnits ([] : List Appliance) season
          - solarGenerated { isInstalled := false, ratingKw := kw }))
        { type := SubsidyType.noSubsidy, limitUnits := L }).billableUnits = (0 : ℚ) := by
      rw [show (applySubsidy
        (max 0 (inventoryUnits ([] : List Appliance) season
          - solarGenerated { isInstalled := false, ratingKw := kw }))
        { type := SubsidyType.noSubsidy, limitUnits := L }).billableUnits
        = max 0 (inventoryUnits ([] : List Appliance) season
          - solarGenerated { isInstalled := false, ratingKw := kw }) from rfl]
      exact hnet
    rw [hbill]
    show (calculateProgressiveBill 0 tariff).energyCost + tariff.fixedCharge
      = tariff.fixedCharge
    have he : (calculateProgressiveBill 0 tariff).energyCost = 0 :=
      energyAtZero tariff.slabs 0 le_rfl hv
    rw [he, zero_add]

/-- Witness for C8 on the spec's example tariff (fixed charge 50). -/
theorem getFullCalculation_empty_witness :
    validTariff exTariff = true ∧
    (∃ r : CalculationResult,
      getFullCalculation [] exTariff { isInstalled := false, ratingKw := 3 }
        { type := SubsidyType.noSubsidy, limitUnits := 0 } Season.summer = Except.ok r ∧
      r.totalUnits = 0 ∧ r.totalCost = exTariff.fixedCharge) :=
  ⟨by decide, getFullCalculation_empty exTariff 3 0 Season.summer (by decide)⟩

/-- C9: saving a daily log preserves at-most-one-log-per-date. Starting
from pairwise-distinct dates, the saved list again has pairwise-distinct
dates; when a log of the same date exists it is replaced in place (a map
leaving every other entry unchanged), otherwise the log is appended. -/
theorem saveLog_spec (prev : List UserDailyUsage) (log : UserDailyUsage)
    (h : prev.Pairwise (fun a b => a.date ≠ b.date)) :
    (saveLog prev log).Pairwise (fun a b => a.date ≠ b.date) ∧
    ((∃ l ∈ prev, l.date = log.date) →
      saveLog prev log = prev.map (fun l => if l.date == log.date then log else l)) ∧
    ((∀ l ∈ prev, l.date ≠ log.date) → saveLog prev log = prev ++ [log]) := by
  cases hfind : prev.find? (fun l => l.date == log.date) with
  | none =>
      have hnone : ∀ l ∈ prev, l.date ≠ log.date := by
        intro l hl
        have hb := List.find?_eq_none.mp hfind l hl
        simpa using hb
      have hsl : saveLog prev log = prev ++ [log] := by rw [saveLog, hfind]
      refine ⟨?_, ?_, fun _ => hsl⟩
      · rw [hsl, List.pairwise_append]
        refine ⟨h, List.pairwise_singleton _ _, ?_⟩
        intro a ha b hb
        rw [List.mem_singleton] at hb
        rw [hb]
        exact hnone a ha
      · intro hex
        obtain ⟨l, hl, hd⟩ := hex
        exact absurd hd (hnone l hl)
  | some l0 =>
      have hl0mem : l0 ∈ prev := List.mem_of_find?_eq_some hfind
      have hl0date : l0.date = log.date := by
        have hb := List.find?_some hfind
        simpa using hb
      have hsl : saveLog prev log = prev.map (fun l => if l.date == log.date then log else l) := by
        rw [saveLog, hfind]
      have hdate : ∀ l : UserDailyUsage, (if l.date == log.date then log else l).date = l.date := by
        intro l
        by_cases hb : l.date == log.date
        · rw [if_pos hb]
          exact (beq_iff_eq.mp hb).symm
        · rw [if_neg hb]
      refine ⟨?_, fun _ => hsl, ?_⟩
      · rw [hsl, List.pairwise_map]
        refine h.imp ?_
        intro a b hab
        rw [hdate a, hdate b]
        exact hab
      · intro hall
        exact absurd hl0date (hall l0 hl0mem)

/-- Witness for C9: appending a log for a fresh date. -/
theorem saveLog_spec_witness :
    ([mkSimpleLog "2024-09-01" 8]).Pairwise
      (fun a b : UserDailyUsage => a.date ≠ b.date) ∧
    ((saveLog [mkSimpleLog "2024-09-01" 8] (mkSimpleLog "2024-09-02" 5)).Pairwise
      (fun a b : UserDailyUsage => a.date ≠ b.date) ∧
    ((∃ l ∈ [mkSimpleLog "2024-09-01" 8], l.date = (mkSimpleLog "2024-09-02" 5).date) →
      saveLog [mkSimpleLog "2024-09-01" 8] (mkSimpleLog "2024-09-02" 5)
        = [mkSimpleLog "2024-09-01" 8].map
            (fun l => if l.date == (mkSimpleLog "2024-09-02" 5).date
                      then mkSimpleLog "2024-09-02" 5 else l)) ∧
    ((∀ l ∈ [mkSimpleLog "2024-09-01" 8], l.date ≠ (mkSimpleLog "2024-09-02" 5).date) →
      saveLog [mkSimpleLog "2024-09-01" 8] (mkSimpleLog "2024-09-02" 5)
        = [mkSimpleLog "2024-09-01" 8] ++ [mkSimpleLog "2024-09-02" 5])) :=
  ⟨by decide, saveLog_spec [mkSimpleLog "2024-09-01" 8] (mkSimpleLog "2024-09-02" 5) (by decide)⟩
